import Mathlib

/-!
Verification of the sysgenid-dbus generation barrier coordinator.

The core state machine lives in `src/src/main.rs`: a `Sysgenid` struct holding a
`u32` generation counter plus two `HashMap<String, Watcher>` membership maps
(tracked-current watchers and outdated watchers), mutated by `bump_generation`
(the `TriggerSysGenUpdate` bus method) and `update_watcher` (the `UpdateWatcher`
bus method, also invoked with `tracking = false` on bus disconnect events).

The embedding below is a direct shallow translation: `u32` arithmetic is `Nat`
with an explicit `% 2 ^ 32`, the hash maps are association lists with key-based
insert/remove/lookup, signal emission (`NewGeneration`, `SystemReady`) is made
explicit in the return values, and the `assert_eq!` inside
`ack_watcher_gen_counter` is modelled as a dedicated failure outcome.
-/

namespace SysgenidDbus

/-- Modulus of Rust `u32` arithmetic. -/
def U32 : Nat := 2 ^ 32

/-- A watcher identity: the unforgeable bus-supplied sender name (`String`). -/
abbrev WatcherId := String

/-- `struct Watcher { acked_gen_counter: u32 }`. -/
structure Watcher where
  acked_gen_counter : Nat
deriving DecidableEq, Repr

/-- `HashMap<String, Watcher>` embedded as an association list. -/
abbrev WMap := List (WatcherId × Watcher)

/-- `HashMap::remove` (effect on the map): drop every binding of key `k`. -/
def removeKey (m : WMap) (k : WatcherId) : WMap :=
  m.filter (fun p => p.1 != k)

/-- `HashMap::get`. -/
def findKey (m : WMap) (k : WatcherId) : Option Watcher :=
  (m.find? (fun p => p.1 == k)).map (fun p => p.2)

/-- `HashMap::insert`: replaces any existing binding of `k`. -/
def insertKey (m : WMap) (k : WatcherId) (v : Watcher) : WMap :=
  (k, v) :: removeKey m k

/-- The key set of a map. -/
def wkeys (m : WMap) : List WatcherId :=
  m.map (fun p => p.1)

/-- `HashMap::extend`: insert every binding of `src` into `m`. -/
def extendWith (m src : WMap) : WMap :=
  src.foldl (fun acc p => insertKey acc p.1 p.2) m

/-- The outbound bus signals the coordinator can emit. -/
inductive Signal where
  | NewGeneration (sysgen_counter : Nat)
  | SystemReady
deriving DecidableEq, Repr

/-- `struct Sysgenid` from `src/src/main.rs`. -/
structure Sysgenid where
  generation_counter : Nat
  watchers : WMap
  outdated_watchers : WMap
deriving DecidableEq, Repr

/-- `Sysgenid::new()`. -/
def Sysgenid.new : Sysgenid :=
  { generation_counter := 0, watchers := [], outdated_watchers := [] }

/-- `Sysgenid::bump_generation`: set the counter to
`max(min_gen, counter + 1)` in `u32` arithmetic, push the `NewGeneration`
signal, and move all tracked watchers into the outdated map. -/
def bump_generation (s : Sysgenid) (min_gen : Nat) : Sysgenid × List Signal :=
  let new_counter := max min_gen ((s.generation_counter + 1) % U32)
  ({ generation_counter := new_counter,
     watchers := [],
     outdated_watchers := extendWith s.outdated_watchers s.watchers },
   [Signal.NewGeneration new_counter])

/-- Outcome of `Sysgenid::update_watcher`: success (with the new state and
whether the `SystemReady` signal was emitted), the
`MethodErr::invalid_arg("watcher_counter")` rejection, or the
`assert_eq!` failure inside `ack_watcher_gen_counter`. -/
inductive UpdateResult where
  | ok (s : Sysgenid) (ready : Bool)
  | invalidArg (arg : String)
  | assertionFailure
deriving DecidableEq, Repr

/-- `Sysgenid::remove_outdated_watcher`: remove the id from the outdated map;
the `SystemReady` signal fires iff the id was present and the map is now
empty. -/
def remove_outdated_watcher (s : Sysgenid) (watcher_id : WatcherId) :
    Sysgenid × Bool :=
  let was_present := (findKey s.outdated_watchers watcher_id).isSome
  let remaining := removeKey s.outdated_watchers watcher_id
  ({ s with outdated_watchers := remaining }, was_present && remaining.isEmpty)

/-- `Sysgenid::ack_watcher_gen_counter`: an already tracked watcher is
re-checked against the counter (`assert_eq!`); an untracked or outdated
watcher is inserted as current and removed from the outdated map. -/
def ack_watcher_gen_counter (s : Sysgenid) (watcher_id : WatcherId) :
    UpdateResult :=
  match findKey s.watchers watcher_id with
  | some w =>
      if w.acked_gen_counter = s.generation_counter then UpdateResult.ok s false
      else UpdateResult.assertionFailure
  | none =>
      let s1 := { s with
        watchers := insertKey s.watchers watcher_id ⟨s.generation_counter⟩ }
      let r := remove_outdated_watcher s1 watcher_id
      UpdateResult.ok r.1 r.2

/-- `Sysgenid::update_watcher`. -/
def update_watcher (s : Sysgenid) (watcher_id : WatcherId) (tracking : Bool)
    (watcher_counter : Nat) : UpdateResult :=
  if tracking then
    if watcher_counter ≠ s.generation_counter then
      UpdateResult.invalidArg "watcher_counter"
    else ack_watcher_gen_counter s watcher_id
  else
    let s1 := { s with watchers := removeKey s.watchers watcher_id }
    let r := remove_outdated_watcher s1 watcher_id
    UpdateResult.ok r.1 r.2

/-- The `UpdateWatcher` bus method handler: runs `update_watcher` on the
sender identity and, on success, replies with the generation counter read
after the call. -/
def UpdateWatcherMethod (s : Sysgenid) (sender : WatcherId) (tracking : Bool)
    (watcher_counter : Nat) : UpdateResult × Option Nat :=
  match update_watcher s sender tracking watcher_counter with
  | UpdateResult.ok s2 ready => (UpdateResult.ok s2 ready, some s2.generation_counter)
  | r => (r, none)

/-- The `GetSysGenCounter` bus method. -/
def GetSysGenCounter (s : Sysgenid) : Nat := s.generation_counter

/-- The `CountOutdatedWatchers` bus method. -/
def CountOutdatedWatchers (s : Sysgenid) : Nat := s.outdated_watchers.length

/-- An external event serialized by the coordinator: a `TriggerSysGenUpdate`
call, or an `UpdateWatcher` call / disconnect event for a watcher id. -/
inductive Op where
  | trigger (min_gen : Nat)
  | update (watcher_id : WatcherId) (tracking : Bool) (watcher_counter : Nat)
deriving DecidableEq, Repr

/-- A single `UpdateWatcher`-style event (acknowledge or stop-tracking),
including disconnect-driven stop-tracking. -/
structure UpdOp where
  watcher_id : WatcherId
  tracking : Bool
  watcher_counter : Nat
deriving DecidableEq, Repr

/-- Run one update event: the resulting state and whether `SystemReady` was
emitted; a rejected or asserting call leaves the state unchanged. -/
def updStep (s : Sysgenid) (u : UpdOp) : Sysgenid × Bool :=
  match update_watcher s u.watcher_id u.tracking u.watcher_counter with
  | UpdateResult.ok s2 ready => (s2, ready)
  | _ => (s, false)

/-- Run one serialized event. -/
def step (s : Sysgenid) : Op → Sysgenid
  | Op.trigger min_gen => (bump_generation s min_gen).1
  | Op.update id tracking counter => (updStep s ⟨id, tracking, counter⟩).1

/-- Run a sequence of events from the initial state. -/
def run (ops : List Op) : Sysgenid :=
  ops.foldl step Sysgenid.new

/-- Run a sequence of update events, counting `SystemReady` emissions. -/
def runUpd : Sysgenid → List UpdOp → Sysgenid × Nat
  | s, [] => (s, 0)
  | s, u :: rest =>
      let p := updStep s u
      let q := runUpd p.1 rest
      (q.1, (if p.2 then 1 else 0) + q.2)

/-! ### Association-list map lemmas -/

theorem mem_of_mem_removeKey {m : WMap} {k : WatcherId} {p : WatcherId × Watcher}
    (h : p ∈ removeKey m k) : p ∈ m :=
  (List.mem_filter.mp h).1

theorem wkeys_removeKey (m : WMap) (k : WatcherId) :
    wkeys (removeKey m k) = (wkeys m).filter (fun a => a != k) := by
  induction m with
  | nil => rfl
  | cons p t ih =>
      simp only [removeKey, wkeys, List.filter_cons, List.map_cons] at ih ⊢
      cases h : (p.1 != k) <;> simp [h, ih]

theorem findKey_isSome_iff (m : WMap) (k : WatcherId) :
    (findKey m k).isSome = true ↔ k ∈ wkeys m := by
  simp [findKey, List.find?_isSome, wkeys, List.mem_map]

theorem findKey_isSome_eq (m : WMap) (k : WatcherId) :
    (findKey m k).isSome = (wkeys m).contains k := by
  by_cases h : k ∈ wkeys m
  · simp [h, (findKey_isSome_iff m k).mpr h]
  · have h2 : (findKey m k).isSome = false := by
      rw [← Bool.not_eq_true]
      exact fun hs => h ((findKey_isSome_iff m k).mp hs)
    simp [h, h2]

theorem wkeys_insertKey (m : WMap) (k : WatcherId) (v : Watcher) :
    wkeys (insertKey m k v) = k :: (wkeys m).filter (fun a => a != k) := by
  show k :: wkeys (removeKey m k) = _
  rw [wkeys_removeKey]

theorem mem_wkeys_removeKey {m : WMap} {k a : WatcherId} :
    a ∈ wkeys (removeKey m k) ↔ (a ∈ wkeys m ∧ a ≠ k) := by
  rw [wkeys_removeKey]
  simp [List.mem_filter]

theorem isEmpty_wkeys (m : WMap) : (wkeys m).isEmpty = m.isEmpty := by
  cases m <;> rfl

theorem wkeys_extendWith (m src : WMap) :
    wkeys (extendWith m src) =
      src.foldl (fun acc p => p.1 :: acc.filter (fun a => a != p.1)) (wkeys m) := by
  induction src generalizing m with
  | nil => rfl
  | cons p t ih =>
      show wkeys (extendWith (insertKey m p.1 p.2) t) = _
      rw [ih (insertKey m p.1 p.2), wkeys_insertKey]
      rfl

theorem present_and_empty_iff (m : WMap) (k : WatcherId) :
    (((findKey m k).isSome && (removeKey m k).isEmpty) = true) ↔
      (m ≠ [] ∧ removeKey m k = []) := by
  rw [Bool.and_eq_true]
  constructor
  · rintro ⟨h1, h2⟩
    refine ⟨?_, by simpa [List.isEmpty_iff] using h2⟩
    intro hnil
    subst hnil
    simp [findKey] at h1
  · rintro ⟨h1, h2⟩
    refine ⟨?_, by simp [h2]⟩
    obtain ⟨x, hx⟩ := List.exists_mem_of_ne_nil m h1
    have hall : ∀ a ∈ m, ¬ (a.1 != k) = true := by
      simpa [removeKey, List.filter_eq_nil_iff] using h2
    have hxk : x.1 = k := by simpa using hall x hx
    have hs : (m.find? (fun p => p.1 == k)).isSome := by
      rw [List.find?_isSome]
      exact ⟨x, hx, by simp [hxk]⟩
    simpa [findKey] using hs

/-! ### Transition-shape lemmas for the update path -/

theorem updStep_cases (s : Sysgenid) (u : UpdOp) :
    (updStep s u).1 = s ∨
    (updStep s u).1 = { s with
        watchers := insertKey s.watchers u.watcher_id ⟨s.generation_counter⟩,
        outdated_watchers := removeKey s.outdated_watchers u.watcher_id } ∨
    (updStep s u).1 = { s with
        watchers := removeKey s.watchers u.watcher_id,
        outdated_watchers := removeKey s.outdated_watchers u.watcher_id } := by
  obtain ⟨id, tracking, counter⟩ := u
  cases tracking with
  | false =>
      right; right
      simp [updStep, update_watcher, remove_outdated_watcher]
  | true =>
      by_cases hc : counter ≠ s.generation_counter
      · left
        simp [updStep, update_watcher, hc]
      · cases hfind : findKey s.watchers id with
        | some w =>
            by_cases ha : w.acked_gen_counter = s.generation_counter
            · left
              simp [updStep, update_watcher, ack_watcher_gen_counter, hc, hfind, ha]
            · left
              simp [updStep, update_watcher, ack_watcher_gen_counter, hc, hfind, ha]
        | none =>
            right; left
            simp [updStep, update_watcher, ack_watcher_gen_counter, hc, hfind,
              remove_outdated_watcher]

theorem updStep_ready_iff (s : Sysgenid) (u : UpdOp) :
    (updStep s u).2 = true ↔
      (s.outdated_watchers ≠ [] ∧ (updStep s u).1.outdated_watchers = []) := by
  obtain ⟨id, tracking, counter⟩ := u
  cases tracking with
  | false =>
      have h := present_and_empty_iff s.outdated_watchers id
      simp only [updStep, update_watcher, remove_outdated_watcher]
      simpa using h
  | true =>
      by_cases hc : counter ≠ s.generation_counter
      · simp [updStep, update_watcher, hc]
      · cases hfind : findKey s.watchers id with
        | some w =>
            by_cases ha : w.acked_gen_counter = s.generation_counter
            · simp [updStep, update_watcher, ack_watcher_gen_counter, hc, hfind, ha]
            · simp [updStep, update_watcher, ack_watcher_gen_counter, hc, hfind, ha]
        | none =>
            have h := present_and_empty_iff s.outdated_watchers id
            simp only [updStep, update_watcher, ack_watcher_gen_counter, hc, hfind,
              remove_outdated_watcher]
            simpa using h

theorem updStep_outdated_nil {s : Sysgenid} (h : s.outdated_watchers = []) (u : UpdOp) :
    (updStep s u).1.outdated_watchers = [] := by
  rcases updStep_cases s u with h1 | h1 | h1 <;> simp [h1, h, removeKey]

theorem runUpd_of_outdated_nil (ops : List UpdOp) (s : Sysgenid)
    (h : s.outdated_watchers = []) :
    (runUpd s ops).1.outdated_watchers = [] ∧ (runUpd s ops).2 = 0 := by
  induction ops generalizing s with
  | nil => exact ⟨h, rfl⟩
  | cons u rest ih =>
      have hout := updStep_outdated_nil h u
      have hr : (updStep s u).2 = false := by
        cases hb : (updStep s u).2
        · rfl
        · exact absurd ((updStep_ready_iff s u).mp hb).1 (fun hne => hne h)
      have hrest := ih (updStep s u).1 hout
      simp [runUpd, hr, hrest.1, hrest.2]

theorem runUpd_count (ops : List UpdOp) (s : Sysgenid) :
    (runUpd s ops).2 =
      if s.outdated_watchers ≠ [] ∧ (runUpd s ops).1.outdated_watchers = []
      then 1 else 0 := by
  induction ops generalizing s with
  | nil =>
      simp [runUpd]
  | cons v rest ih =>
      cases hr : (updStep s v).2
      · by_cases hnil : s.outdated_watchers = []
        · have hout := updStep_outdated_nil hnil v
          simp [runUpd, hr, (runUpd_of_outdated_nil rest _ hout).2, hnil]
        · by_cases hnil2 : (updStep s v).1.outdated_watchers = []
          · exact absurd ((updStep_ready_iff s v).mpr ⟨hnil, hnil2⟩) (by simp [hr])
          · simp [runUpd, hr, ih (updStep s v).1, hnil, hnil2]
      · obtain ⟨hne, hempty⟩ := (updStep_ready_iff s v).mp hr
        obtain ⟨h1, h2⟩ := runUpd_of_outdated_nil rest (updStep s v).1 hempty
        simp [runUpd, hr, h1, h2, hne]

/-! ### Step-invariant lemmas -/

theorem currentAcked_step {s : Sysgenid}
    (h : ∀ p ∈ s.watchers, p.2.acked_gen_counter = s.generation_counter) (op : Op) :
    ∀ p ∈ (step s op).watchers,
      p.2.acked_gen_counter = (step s op).generation_counter := by
  cases op with
  | trigger m => simp [step, bump_generation]
  | update id tracking counter =>
      rcases updStep_cases s ⟨id, tracking, counter⟩ with h1 | h1 | h1
      · simpa [step, h1] using h
      · simp only [step, h1]
        intro p hp
        rw [insertKey] at hp
        rcases List.mem_cons.mp hp with rfl | hp2
        · rfl
        · exact h p (mem_of_mem_removeKey hp2)
      · simp only [step, h1]
        intro p hp
        exact h p (mem_of_mem_removeKey hp)

theorem currentAcked_foldl (ops : List Op) (s : Sysgenid)
    (h : ∀ p ∈ s.watchers, p.2.acked_gen_counter = s.generation_counter) :
    ∀ p ∈ (ops.foldl step s).watchers,
      p.2.acked_gen_counter = (ops.foldl step s).generation_counter := by
  induction ops generalizing s with
  | nil => exact h
  | cons op rest ih => exact ih (step s op) (currentAcked_step h op)

theorem disjoint_step {s : Sysgenid}
    (h : ∀ k ∈ wkeys s.watchers, k ∉ wkeys s.outdated_watchers) (op : Op) :
    ∀ k ∈ wkeys (step s op).watchers, k ∉ wkeys (step s op).outdated_watchers := by
  cases op with
  | trigger m => simp [step, bump_generation, wkeys]
  | update id tracking counter =>
      rcases updStep_cases s ⟨id, tracking, counter⟩ with h1 | h1 | h1
      · simpa [step, h1] using h
      · simp only [step, h1]
        intro k hk
        rw [wkeys_insertKey] at hk
        rcases List.mem_cons.mp hk with rfl | hk2
        · intro hmem
          exact (mem_wkeys_removeKey.mp hmem).2 rfl
        · intro hmem
          exact h k (List.mem_filter.mp hk2).1 (mem_wkeys_removeKey.mp hmem).1
      · simp only [step, h1]
        intro k hk hmem
        exact h k (mem_wkeys_removeKey.mp hk).1 (mem_wkeys_removeKey.mp hmem).1

theorem disjoint_foldl (ops : List Op) (s : Sysgenid)
    (h : ∀ k ∈ wkeys s.watchers, k ∉ wkeys s.outdated_watchers) :
    ∀ k ∈ wkeys (ops.foldl step s).watchers,
      k ∉ wkeys (ops.foldl step s).outdated_watchers := by
  induction ops generalizing s with
  | nil => exact h
  | cons op rest ih => exact ih (step s op) (disjoint_step h op)

/-! ### Spec-side model for the refinement claim

The spec's data model (§3) gives `Outdated` no stored counter: the outdated
collection is a bare set of watcher ids. The definitions below restate the
operations over that abstract state, to be compared with the source embedding
through the abstraction map `absState`. -/

/-- Spec-side state: the outdated collection is a set of ids only. -/
structure SpecSysgenid where
  generation_counter : Nat
  watchers : WMap
  outdated_ids : List WatcherId
deriving DecidableEq, Repr

/-- Remove an id from an id set. -/
def idRemove (l : List WatcherId) (k : WatcherId) : List WatcherId :=
  l.filter (fun a => a != k)

/-- Insert an id into an id set. -/
def idInsert (l : List WatcherId) (k : WatcherId) : List WatcherId :=
  k :: idRemove l k

/-- Spec-side operation outcome, mirroring `UpdateResult`. -/
inductive SpecUpdateResult where
  | ok (a : SpecSysgenid) (ready : Bool)
  | invalidArg (arg : String)
  | assertionFailure
deriving DecidableEq, Repr

/-- Spec-side `triggerUpdate`: advance the clock, mark all tracked watcher
ids outdated, emit the generation-changed notification. -/
def specBump (a : SpecSysgenid) (min_gen : Nat) : SpecSysgenid × List Signal :=
  let new_counter := max min_gen ((a.generation_counter + 1) % U32)
  ({ generation_counter := new_counter,
     watchers := [],
     outdated_ids := a.watchers.foldl (fun acc p => idInsert acc p.1) a.outdated_ids },
   [Signal.NewGeneration new_counter])

/-- Spec-side removal from the outdated id set. -/
def specRemoveOutdated (a : SpecSysgenid) (watcher_id : WatcherId) :
    SpecSysgenid × Bool :=
  let was_present := a.outdated_ids.contains watcher_id
  let remaining := idRemove a.outdated_ids watcher_id
  ({ a with outdated_ids := remaining }, was_present && remaining.isEmpty)

/-- Spec-side acknowledge. -/
def specAck (a : SpecSysgenid) (watcher_id : WatcherId) : SpecUpdateResult :=
  match findKey a.watchers watcher_id with
  | some w =>
      if w.acked_gen_counter = a.generation_counter then SpecUpdateResult.ok a false
      else SpecUpdateResult.assertionFailure
  | none =>
      let a1 := { a with
        watchers := insertKey a.watchers watcher_id ⟨a.generation_counter⟩ }
      let r := specRemoveOutdated a1 watcher_id
      SpecUpdateResult.ok r.1 r.2

/-- Spec-side `updateWatcher`. -/
def specUpdateWatcher (a : SpecSysgenid) (watcher_id : WatcherId) (tracking : Bool)
    (watcher_counter : Nat) : SpecUpdateResult :=
  if tracking then
    if watcher_counter ≠ a.generation_counter then
      SpecUpdateResult.invalidArg "watcher_counter"
    else specAck a watcher_id
  else
    let a1 := { a with watchers := removeKey a.watchers watcher_id }
    let r := specRemoveOutdated a1 watcher_id
    SpecUpdateResult.ok r.1 r.2

/-- Abstraction map: forget the counters stored in the outdated map. -/
def absState (s : Sysgenid) : SpecSysgenid :=
  { generation_counter := s.generation_counter,
    watchers := s.watchers,
    outdated_ids := wkeys s.outdated_watchers }

/-- Abstraction map on operation outcomes. -/
def absResult : UpdateResult → SpecUpdateResult
  | UpdateResult.ok s ready => SpecUpdateResult.ok (absState s) ready
  | UpdateResult.invalidArg a => SpecUpdateResult.invalidArg a
  | UpdateResult.assertionFailure => SpecUpdateResult.assertionFailure

theorem absState_remove_outdated (s : Sysgenid) (id : WatcherId) :
    absState (remove_outdated_watcher s id).1 =
      (specRemoveOutdated (absState s) id).1 ∧
    (remove_outdated_watcher s id).2 = (specRemoveOutdated (absState s) id).2 := by
  constructor
  · simp [absState, remove_outdated_watcher, specRemoveOutdated, idRemove,
      wkeys_removeKey]
  · simp [remove_outdated_watcher, specRemoveOutdated, idRemove,
      findKey_isSome_eq, wkeys_removeKey, absState]
    rw [← isEmpty_wkeys, wkeys_removeKey]

theorem abs_remove_ok (s1 : Sysgenid) (id : WatcherId) :
    SpecUpdateResult.ok (absState (remove_outdated_watcher s1 id).1)
      (remove_outdated_watcher s1 id).2 =
    SpecUpdateResult.ok (specRemoveOutdated (absState s1) id).1
      (specRemoveOutdated (absState s1) id).2 := by
  obtain ⟨h1, h2⟩ := absState_remove_outdated s1 id
  rw [h1, h2]

theorem abs_update_watcher (s : Sysgenid) (id : WatcherId) (tracking : Bool)
    (counter : Nat) :
    absResult (update_watcher s id tracking counter) =
      specUpdateWatcher (absState s) id tracking counter := by
  cases tracking with
  | false =>
      simp only [update_watcher, specUpdateWatcher, absResult]
      exact abs_remove_ok { s with watchers := removeKey s.watchers id } id
  | true =>
      by_cases hc : counter ≠ s.generation_counter
      · simp [update_watcher, specUpdateWatcher, hc, absResult, absState]
      · cases hfind : findKey s.watchers id with
        | some w =>
            by_cases ha : w.acked_gen_counter = s.generation_counter
            · simp [update_watcher, specUpdateWatcher, ack_watcher_gen_counter,
                specAck, hc, hfind, ha, absResult, absState]
            · simp [update_watcher, specUpdateWatcher, ack_watcher_gen_counter,
                specAck, hc, hfind, ha, absResult, absState]
        | none =>
            simp only [update_watcher, specUpdateWatcher,
              ack_watcher_gen_counter, specAck, absState, absResult, hc, hfind]
            exact abs_remove_ok
              { s with watchers := insertKey s.watchers id ⟨s.generation_counter⟩ } id

theorem abs_bump (s : Sysgenid) (min_gen : Nat) :
    absState (bump_generation s min_gen).1 = (specBump (absState s) min_gen).1 ∧
    (bump_generation s min_gen).2 = (specBump (absState s) min_gen).2 := by
  constructor
  · simp [absState, bump_generation, specBump, wkeys_extendWith, idInsert, idRemove]
  · simp [bump_generation, specBump, absState]

/-! ### Claim theorems -/

/-- C1, counterexample: from the initial state (no tracked watchers),
`bump_generation 0` leaves the outdated set empty yet emits only
`NewGeneration 1`; the claimed immediate `SystemReady` notification is not
emitted. -/
theorem trigger_vacuous_emits_no_ready :
    Sysgenid.new.watchers = [] ∧
    (bump_generation Sysgenid.new 0).1.outdated_watchers = [] ∧
    (bump_generation Sysgenid.new 0).2 = [Signal.NewGeneration 1] ∧
    Signal.SystemReady ∉ (bump_generation Sysgenid.new 0).2 := by
  decide

/-- C1, amended: `bump_generation` (the `triggerUpdate` path) emits exactly
the generation-changed notification and never `SystemReady`, in particular
also when no watchers were tracked at the time of the call. -/
theorem trigger_emits_only_new_generation (s : Sysgenid) (min_gen : Nat) :
    (bump_generation s min_gen).2 =
      [Signal.NewGeneration (bump_generation s min_gen).1.generation_counter] ∧
    Signal.SystemReady ∉ (bump_generation s min_gen).2 := by
  simp [bump_generation]

/-- C2, counterexample: after `triggerUpdate (2^32 - 1)` the counter is
`2^32 - 1`; the next `triggerUpdate 0` wraps the `u32` increment, so the
counter drops to `0` instead of `max 0 (previous + 1)`: the counter is not
strictly increasing over all sequences of calls. -/
theorem counter_wraps_at_u32 :
    (run [Op.trigger (U32 - 1)]).generation_counter = U32 - 1 ∧
    (run [Op.trigger (U32 - 1), Op.trigger 0]).generation_counter = 0 ∧
    ¬ ((run [Op.trigger (U32 - 1)]).generation_counter <
        (run [Op.trigger (U32 - 1), Op.trigger 0]).generation_counter) ∧
    (run [Op.trigger (U32 - 1), Op.trigger 0]).generation_counter ≠
      max 0 ((run [Op.trigger (U32 - 1)]).generation_counter + 1) := by
  decide

/-- C2, amended: as long as `previous + 1` does not overflow `u32`, each
`triggerUpdate(minimum)` call sets the counter to `max minimum (previous + 1)`
and strictly increases it, regardless of the minimum supplied. -/
theorem bump_counter_formula (s : Sysgenid) (min_gen : Nat)
    (h : s.generation_counter + 1 < U32) :
    (bump_generation s min_gen).1.generation_counter =
      max min_gen (s.generation_counter + 1) ∧
    s.generation_counter < (bump_generation s min_gen).1.generation_counter := by
  have hm : (s.generation_counter + 1) % U32 = s.generation_counter + 1 :=
    Nat.mod_eq_of_lt h
  refine ⟨by simp [bump_generation, hm], ?_⟩
  show s.generation_counter < max min_gen ((s.generation_counter + 1) % U32)
  rw [hm]
  exact lt_of_lt_of_le (Nat.lt_succ_self _) (le_max_right _ _)

/-- C2, witness: the amended formula applied at the initial state with
minimum 7. -/
theorem bump_counter_formula_witness :
    (bump_generation Sysgenid.new 7).1.generation_counter =
      max 7 (Sysgenid.new.generation_counter + 1) ∧
    Sysgenid.new.generation_counter <
      (bump_generation Sysgenid.new 7).1.generation_counter :=
  bump_counter_formula Sysgenid.new 7 (by decide)

/-- C3: a tracking acknowledgement whose counter differs from the current
generation counter is rejected with `invalid_arg "watcher_counter"` and
causes no state change and no notification. -/
theorem stale_ack_rejected (s : Sysgenid) (id : WatcherId) (watcher_counter : Nat)
    (h : watcher_counter ≠ s.generation_counter) :
    update_watcher s id true watcher_counter =
      UpdateResult.invalidArg "watcher_counter" ∧
    step s (Op.update id true watcher_counter) = s :=
  ⟨by simp [update_watcher, h], by simp [step, updStep, update_watcher, h]⟩

/-- C3, witness: acknowledging counter 1 at the initial state (generation 0)
is rejected and leaves the state unchanged. -/
theorem stale_ack_rejected_witness :
    update_watcher Sysgenid.new "w1" true 1 =
      UpdateResult.invalidArg "watcher_counter" ∧
    step Sysgenid.new (Op.update "w1" true 1) = Sysgenid.new :=
  stale_ack_rejected Sysgenid.new "w1" 1 (by decide)

/-- C4: over any sequence of acknowledge / stop-tracking operations, the
number of `SystemReady` emissions is 1 exactly when the outdated set went
from non-empty to empty (else 0), and a single operation emits `SystemReady`
precisely when it makes the outdated set transition from non-empty to
empty. -/
theorem system_ready_exactly_once (s : Sysgenid) (ops : List UpdOp) (u : UpdOp) :
    ((runUpd s ops).2 =
      if s.outdated_watchers ≠ [] ∧ (runUpd s ops).1.outdated_watchers = []
      then 1 else 0) ∧
    ((updStep s u).2 = true ↔
      (s.outdated_watchers ≠ [] ∧ (updStep s u).1.outdated_watchers = [])) :=
  ⟨runUpd_count ops s, updStep_ready_iff s u⟩

/-- C5: after any sequence of operations from the initial state, every record
in the tracked-current map stores an acknowledged generation equal to the
current generation counter (invariant I2). -/
theorem current_watchers_acked (ops : List Op) :
    ((run ops).watchers.all
      (fun p => p.2.acked_gen_counter == (run ops).generation_counter)) = true := by
  rw [List.all_eq_true]
  intro p hp
  have h := currentAcked_foldl ops Sysgenid.new (by simp [Sysgenid.new]) p hp
  simpa using h

/-- C6: after any sequence of operations from the initial state, no watcher
id is in both the tracked-current map and the outdated map (invariant I1). -/
theorem watcher_sets_disjoint (ops : List Op) :
    ((run ops).watchers.all
      (fun p => !((wkeys (run ops).outdated_watchers).contains p.1))) = true := by
  rw [List.all_eq_true]
  intro p hp
  have hmem : p.1 ∈ wkeys (run ops).watchers := List.mem_map_of_mem _ hp
  have hd := disjoint_foldl ops Sysgenid.new (by simp [Sysgenid.new, wkeys]) p.1 hmem
  simpa using hd

/-- C7: re-acknowledging an already-current watcher with the current
generation counter succeeds, emits no notification, and returns the state
completely unchanged. -/
theorem reack_current_idempotent (s : Sysgenid) (id : WatcherId) (w : Watcher)
    (hfind : findKey s.watchers id = some w)
    (hacked : w.acked_gen_counter = s.generation_counter) :
    update_watcher s id true s.generation_counter = UpdateResult.ok s false := by
  simp [update_watcher, ack_watcher_gen_counter, hfind, hacked]

/-- C7, witness: a state at generation 5 with one current watcher, which
re-acknowledges generation 5. -/
theorem reack_current_idempotent_witness :
    update_watcher
      { generation_counter := 5, watchers := [("w1", ⟨5⟩)], outdated_watchers := [] }
      "w1" true
      (Sysgenid.mk 5 [("w1", ⟨5⟩)] []).generation_counter =
      UpdateResult.ok
        { generation_counter := 5, watchers := [("w1", ⟨5⟩)], outdated_watchers := [] }
        false :=
  reack_current_idempotent
    { generation_counter := 5, watchers := [("w1", ⟨5⟩)], outdated_watchers := [] }
    "w1" ⟨5⟩ (by decide) (by decide)

/-- C8: the stop-tracking path always succeeds, removes the id from both
maps, emits `SystemReady` exactly when the removal took an element out of a
previously non-empty outdated set and left it empty, and the bus method then
replies with the current generation counter. -/
theorem stop_tracking_behavior (s : Sysgenid) (id : WatcherId) (watcher_counter : Nat) :
    update_watcher s id false watcher_counter =
      UpdateResult.ok
        { s with watchers := removeKey s.watchers id,
                 outdated_watchers := removeKey s.outdated_watchers id }
        ((findKey s.outdated_watchers id).isSome &&
          (removeKey s.outdated_watchers id).isEmpty) ∧
    ((((findKey s.outdated_watchers id).isSome &&
        (removeKey s.outdated_watchers id).isEmpty) = true) ↔
      (s.outdated_watchers ≠ [] ∧ removeKey s.outdated_watchers id = [])) ∧
    (UpdateWatcherMethod s id false watcher_counter).2 = some s.generation_counter :=
  ⟨rfl, present_and_empty_iff _ _, rfl⟩

/-- C9: with `tracking = false`, `update_watcher` never fails, and its result
does not depend on the supplied watcher counter at all. -/
theorem opt_out_never_fails (s : Sysgenid) (id : WatcherId) (watcher_counter : Nat) :
    (∃ s2 ready, update_watcher s id false watcher_counter =
        UpdateResult.ok s2 ready) ∧
    update_watcher s id false watcher_counter = update_watcher s id false 0 :=
  ⟨⟨_, _, rfl⟩, rfl⟩

/-- C10: the implementation refines the spec model in which the outdated
collection carries no counters: through the abstraction map that keeps only
the outdated ids, both operations commute with the spec-side operations and
all observables (result, ready signal, generation, outdated count) agree, so
the counters stored in the outdated map are never read. -/
theorem outdated_counter_never_read (s : Sysgenid) (min_gen : Nat) (id : WatcherId)
    (tracking : Bool) (watcher_counter : Nat) :
    absState (bump_generation s min_gen).1 = (specBump (absState s) min_gen).1 ∧
    (bump_generation s min_gen).2 = (specBump (absState s) min_gen).2 ∧
    absResult (update_watcher s id tracking watcher_counter) =
      specUpdateWatcher (absState s) id tracking watcher_counter ∧
    GetSysGenCounter s = (absState s).generation_counter ∧
    CountOutdatedWatchers s = (absState s).outdated_ids.length :=
  ⟨(abs_bump s min_gen).1, (abs_bump s min_gen).2,
   abs_update_watcher s id tracking watcher_counter, rfl,
   by simp [CountOutdatedWatchers, absState, wkeys]⟩

end SysgenidDbus
